import Mathlib

/-!
Shallow embedding of the species-tracker web application
(`src/app/species/species-details-dialog.tsx`, `src/app/species/comment-card.tsx`,
`src/app/species/page.tsx`, and the two unnamed sibling variants): the zod
validation schemas, the dialog's view/edit/open state with its event handlers,
and the comment card's delete handler.  Adapter (Supabase) results, toast
notifications, router refreshes and `window.confirm` prompts are modelled as an
explicit effect trace; the adapter's outcome and the user's confirm answer are
inputs to each handler.
-/

deriving instance DecidableEq for Except

namespace SpeciesApp

/-- The six-valued kingdom enum, source `kingdoms = z.enum([...])`
(species-details-dialog.tsx line 31). -/
inductive Kingdom where
  | Animalia | Plantae | Fungi | Protista | Archaea | Bacteria
deriving DecidableEq, Repr

/-- A row of the species table (schema listed in the spec: id, scientific_name,
common_name, kingdom, total_population, image, description, author).  Nullable
columns are `Option`; `id` and numeric fields are `Int`. -/
structure Species where
  id : Int
  scientific_name : String
  common_name : Option String
  kingdom : Kingdom
  total_population : Option Int
  image : Option String
  description : Option String
  author : String
deriving DecidableEq, Repr

/-- A row of the comments table (id, created_at, content, author, species).
`created_at` is kept as an uninterpreted string; it is only used for display
formatting, which no claim concerns. -/
structure Comment where
  id : Int
  created_at : String
  content : String
  author : String
  species : Int
deriving DecidableEq, Repr

/-- List-level model of ECMAScript `String.prototype.trim`: drop whitespace
from both ends. -/
def trimList (l : List Char) : List Char :=
  ((l.dropWhile Char.isWhitespace).reverse.dropWhile Char.isWhitespace).reverse

/-- Model of the JavaScript string method `.trim()` used by zod's `.trim()`,
`.transform((val) => val.trim())` and the whitespace-only `.refine`.  The
ECMAScript whitespace set is modelled by `Char.isWhitespace`. -/
def jsTrim (s : String) : String :=
  String.mk (trimList s.data)

/-- Model of the JavaScript `.length` of a string.  JS counts UTF-16 code
units; over the basic plane this equals the code-point count used here. -/
def jsLength (s : String) : Nat :=
  s.data.length

/-- The possible issues of `commentFormSchema` (part_001 lines 30-43):
the `.min(1)` message, the `.max(150)` message, and the whitespace-only
`.refine` message. -/
inductive CommentErr where
  | tooShort      -- "Comment must be at least 1 character."
  | tooLong       -- "Comment must not be longer than 150 characters."
  | emptyTrim     -- "String cannot be empty or contain only whitespace"
deriving DecidableEq, Repr

/-- The zod `commentFormSchema` (part_001 lines 30-43) applied to the
`content` field: `z.string().min(1).max(150).refine(trim ≠ "").transform(trim)`.
The `.min` and `.max` checks run on the raw string, the `.refine` and the
trimming `.transform` run afterwards; the first failing check's issue is
returned. -/
def commentFormSchema (content : String) : Except CommentErr String :=
  if jsLength content < 1 then .error .tooShort
  else if 150 < jsLength content then .error .tooLong
  else if jsTrim content = "" then .error .emptyTrim
  else .ok (jsTrim content)

/-- Scheme tail of a URL: scheme characters (`ALPHA / DIGIT / + / - / .`)
followed by a colon. -/
def hasSchemeColon : List Char → Bool
  | [] => false
  | c :: rest =>
    if c = ':' then true
    else (c.isAlphanum || c = '+' || c = '-' || c = '.') && hasSchemeColon rest

/-- Models the zod `.url()` check, which succeeds exactly when the WHATWG
`new URL(value)` constructor does.  Approximated by the parser's scheme
requirement: after stripping surrounding whitespace the string must start with
an ASCII letter followed by scheme characters and a colon.  The inputs the
claims rely on (the empty string and whitespace-only strings) are invalid for
the real constructor and for this model alike. -/
def isValidURL (s : String) : Bool :=
  match (jsTrim s).data with
  | [] => false
  | c :: rest => c.isAlpha && hasSchemeColon rest

/-- Raw data of the species form: the `SpeciesFormData` shape.  Text inputs
hold strings or null, the kingdom select always holds an enum value, and the
population input's change handler coerces via unary plus, so the field holds a
number or null (the `.int()` check is modelled by restricting the embedded
type to `Int`). -/
structure SpeciesFormData where
  scientific_name : String
  common_name : Option String
  kingdom : Kingdom
  total_population : Option Int
  image : Option String
  description : Option String
deriving DecidableEq, Repr

/-- The field that makes `speciesSchema` fail. -/
inductive SpeciesErr where
  | scientificNameEmpty   -- .trim().min(1) fails
  | populationNotPositive -- .positive().min(1) fails
  | imageInvalid          -- .url() fails
deriving DecidableEq, Repr

/-- The shared empty-to-null transform used by the nullable string fields:
`(val) => (!val || val.trim() === "" ? null : val.trim())`
(species-details-dialog.tsx lines 44, 52, 57). -/
def normOpt : Option String → Option String
  | none => none
  | some s => if jsTrim s = "" then none else some (jsTrim s)

/-- The zod `speciesSchema` (species-details-dialog.tsx lines 34-58).  Field
checks in source order; note that for `image` the `.url()` syntactic check
runs on the raw string BEFORE the empty-to-null `.transform`.  Returns the
first failing field's issue, or the normalized data. -/
def speciesSchema (i : SpeciesFormData) : Except SpeciesErr SpeciesFormData :=
  if jsLength (jsTrim i.scientific_name) < 1 then .error .scientificNameEmpty
  else
    match i.total_population with
    | some n =>
      if n < 1 then .error .populationNotPositive
      else checkImage i (some n)
    | none => checkImage i none
where
  /-- continue with the `image` field, then assemble the normalized output. -/
  checkImage (i : SpeciesFormData) (pop : Option Int) : Except SpeciesErr SpeciesFormData :=
    match i.image with
    | some s =>
      if isValidURL s then
        .ok { scientific_name := jsTrim i.scientific_name
              common_name := normOpt i.common_name
              kingdom := i.kingdom
              total_population := pop
              image := normOpt (some s)
              description := normOpt i.description }
      else .error .imageInvalid
    | none =>
      .ok { scientific_name := jsTrim i.scientific_name
            common_name := normOpt i.common_name
            kingdom := i.kingdom
            total_population := pop
            image := none
            description := normOpt i.description }

/-- React-hook-form state of one form: the current field `values` and the
`defaultValues`; `reset(x)` sets both to `x`. -/
structure FormPair (α : Type) where
  values : α
  defaults : α
deriving DecidableEq, Repr

/-- Local state of the species details dialog component (part_001 /
species-details-dialog.tsx): the `isEditing` and `open` `useState` flags
(`open` renamed `isOpen`, `open` being a Lean keyword), plus the two
react-hook-form states. -/
structure DialogState where
  isEditing : Bool
  isOpen : Bool
  speciesForm : FormPair SpeciesFormData
  commentForm : FormPair String
deriving DecidableEq, Repr

/-- Observable effects of the handlers, in program order: `window.confirm`
prompts, the three Supabase adapter mutations, toasts (success / destructive
variant), and `router.refresh()`. -/
inductive Effect where
  | confirmAsked (msg : String)
  | updateSpecies (id : Int) (fields : SpeciesFormData)
  | deleteSpecies (id : Int)
  | insertComment (author : String) (content : String) (speciesId : Int)
  | deleteComment (id : Int)
  | toastSuccess (title descr : String)
  | toastErr (title descr : String)
  | routerRefresh
deriving DecidableEq, Repr

namespace SpeciesDialog

/-- The `flipEditing` callback (part_001 lines 55-57): toggles `isEditing`. -/
def flipEditing (st : DialogState) : DialogState :=
  { st with isEditing := !st.isEditing }

/-- The `handleOpenChange` callback (part_001 lines 117-120 /
species-details-dialog.tsx lines 131-134): always clears `isEditing`, then
sets `open` to the incoming value.  No confirm prompt, no adapter call. -/
def handleOpenChange (st : DialogState) (o : Bool) : DialogState × List Effect :=
  ({ st with isEditing := false, isOpen := o }, [])

/-- The `handleCancel` callback (part_001 lines 123-128 /
species-details-dialog.tsx lines 137-142): asks `window.confirm`; on a yes
answer calls `flipEditing`, on a no answer returns early.  Form state is not
touched in either case. -/
def handleCancel (st : DialogState) (answer : Bool) : DialogState × List Effect :=
  (if answer then flipEditing st else st,
   [.confirmAsked "All changes will be discarded."])

/-- The `onSaveChanges` handler (part_001 lines 85-114 /
species-details-dialog.tsx lines 98-128), given the validated form `input`
and the adapter's outcome (`some msg` = Supabase error): on error, toast the
error message and return early; on success, clear `isEditing`, `reset(input)`
the species form, `router.refresh()`, and toast success. -/
def onSaveChanges (sp : Species) (st : DialogState) (input : SpeciesFormData)
    (adapterErr : Option String) : DialogState × List Effect :=
  match adapterErr with
  | some msg =>
    (st, [.updateSpecies sp.id input, .toastErr "Something went wrong." msg])
  | none =>
    ({ st with isEditing := false, speciesForm := ⟨input, input⟩ },
     [.updateSpecies sp.id input, .routerRefresh,
      .toastSuccess "Species Details Edited!"
        ("Successfully edited " ++ input.scientific_name ++ ".")])

/-- The `handleDelete` handler of the dialog (part_001 lines 131-159): confirm
first and return early on a no answer; then the adapter delete; on error,
toast it and return early; on success, `router.refresh()`, close the dialog,
and toast success. -/
def handleDelete (sp : Species) (st : DialogState) (answer : Bool)
    (adapterErr : Option String) : DialogState × List Effect :=
  if answer then
    match adapterErr with
    | some msg =>
      (st, [.confirmAsked "Are you sure you want to delete this species?",
            .deleteSpecies sp.id, .toastErr "Something went wrong." msg])
    | none =>
      ({ st with isOpen := false },
       [.confirmAsked "Are you sure you want to delete this species?",
        .deleteSpecies sp.id, .routerRefresh,
        .toastSuccess "Species Deleted"
          ("Successfully deleted " ++ sp.scientific_name ++ ".")])
  else (st, [.confirmAsked "Are you sure you want to delete this species?"])

/-- The `onPost` handler (part_001 lines 175-206), given the validated,
trimmed comment `input` and the adapter outcome: insert the comment with the
current user as author and the current species; on error, toast it and return
early; on success, `reset` the comment form to the empty default,
`router.refresh()`, and toast success. -/
def onPost (userId : String) (sp : Species) (st : DialogState) (input : String)
    (adapterErr : Option String) : DialogState × List Effect :=
  match adapterErr with
  | some msg =>
    (st, [.insertComment userId input sp.id, .toastErr "Something went wrong." msg])
  | none =>
    ({ st with commentForm := ⟨"", ""⟩ },
     [.insertComment userId input sp.id, .routerRefresh,
      .toastSuccess "Comment Posted!"
        ("Successfully commented \"" ++
          (jsTrim (input.take 25) ++ (if 25 < jsLength input then "..." else "")) ++ "\"")])

/-- Whether the Edit Species button is rendered in the joined-query dialog
variant (part_001 line 378): viewing branch only, and gated on
`userId == species.author`. -/
def editButtonShown (userId : String) (sp : Species) (st : DialogState) : Bool :=
  !st.isEditing && userId == sp.author

/-- Whether the Edit Species button is rendered in the secondary-query dialog
variant (species-details-dialog.tsx line 312): viewing branch only, with NO
ownership condition — the `userId` prop is received but unused there. -/
def editButtonShownSecondary (userId : String) (sp : Species) (st : DialogState) : Bool :=
  !st.isEditing

/-- Whether the Delete Species button is rendered (part_001 lines 354-358): it
sits inside the editing branch of the dialog, so only while `isEditing`.  The
secondary-query variant renders no species delete button at all. -/
def deleteButtonShown (st : DialogState) : Bool :=
  st.isEditing

/-- User-originated events of the dialog.  Confirm answers and adapter
outcomes travel with the event that consumes them. -/
inductive Ev where
  | openChange (o : Bool)
  | clickEdit
  | clickCancel (answer : Bool)
  | typeSpecies (raw : SpeciesFormData)
  | submitSpecies (adapterErr : Option String)
  | clickDeleteSpecies (answer : Bool) (adapterErr : Option String)
  | typeComment (raw : String)
  | submitComment (adapterErr : Option String)
deriving DecidableEq, Repr

/-- One event step of the dialog.  Buttons and fields that the current branch
does not render cannot fire, so their events are no-ops there: edit / comment
affordances live in the viewing branch, the species form with its cancel,
save and delete buttons in the editing branch.  `handleSubmit` runs the zod
resolver and only calls the submit handler on a pass. -/
def step (userId : String) (sp : Species) (st : DialogState) :
    Ev → DialogState × List Effect
  | .openChange o => handleOpenChange st o
  | .clickEdit =>
    if editButtonShown userId sp st then (flipEditing st, []) else (st, [])
  | .clickCancel answer =>
    if st.isEditing then handleCancel st answer else (st, [])
  | .typeSpecies raw =>
    if st.isEditing then
      ({ st with speciesForm := { st.speciesForm with values := raw } }, [])
    else (st, [])
  | .submitSpecies adapterErr =>
    if st.isEditing then
      match speciesSchema st.speciesForm.values with
      | .error _ => (st, [])
      | .ok v => onSaveChanges sp st v adapterErr
    else (st, [])
  | .clickDeleteSpecies answer adapterErr =>
    if st.isEditing then handleDelete sp st answer adapterErr else (st, [])
  | .typeComment raw =>
    if !st.isEditing then
      ({ st with commentForm := { st.commentForm with values := raw } }, [])
    else (st, [])
  | .submitComment adapterErr =>
    if !st.isEditing then
      match commentFormSchema st.commentForm.values with
      | .error _ => (st, [])
      | .ok v => onPost userId sp st v adapterErr
    else (st, [])

/-- Run a sequence of events, concatenating the emitted effects. -/
def run (userId : String) (sp : Species) (st : DialogState) :
    List Ev → DialogState × List Effect
  | [] => (st, [])
  | e :: es =>
    let p := step userId sp st e
    let q := run userId sp p.1 es
    (q.1, p.2 ++ q.2)

end SpeciesDialog

namespace CommentCard

/-- Whether a comment's Delete button is rendered (comment-card.tsx lines
57-59, identically in both card variants): gated on
`userId == comment.author`. -/
def deleteShown (userId : String) (c : Comment) : Bool :=
  userId == c.author

/-- The `handleDelete` handler of the comment card (comment-card.tsx lines
24-51): confirm and return early on a no answer; then the adapter delete; on
error, toast it; on success, `router.refresh()` and toast success.  The card
holds no local state. -/
def handleDelete (c : Comment) (answer : Bool) (adapterErr : Option String) :
    List Effect :=
  if answer then
    match adapterErr with
    | some msg =>
      [.confirmAsked "Are you sure you want to delete this comment?",
       .deleteComment c.id, .toastErr "Something went wrong." msg]
    | none =>
      [.confirmAsked "Are you sure you want to delete this comment?",
       .deleteComment c.id, .routerRefresh,
       .toastSuccess "Comment Deleted"
         ("Successfully deleted \"" ++
           (jsTrim (c.content.take 25) ++ (if 25 < jsLength c.content then "..." else "")) ++ "\"")]
  else [.confirmAsked "Are you sure you want to delete this comment?"]

/-- Clicking delete on a comment card: a no-op unless the button is rendered,
i.e. unless the current user is the comment's author. -/
def clickDelete (userId : String) (c : Comment) (answer : Bool)
    (adapterErr : Option String) : List Effect :=
  if deleteShown userId c then handleDelete c answer adapterErr else []

end CommentCard

/-! Concrete sample data used by witnesses and counterexamples. -/

/-- A species form value set that the schema accepts unchanged. -/
def sampleForm : SpeciesFormData :=
  ⟨"Cavia porcellus", none, .Animalia, none, none, none⟩

/-- A different accepted value set, standing for in-progress edits. -/
def editedForm : SpeciesFormData :=
  ⟨"Mus musculus", none, .Animalia, none, none, none⟩

/-- A species record owned by user `author-1`. -/
def sampleSpecies : Species :=
  ⟨7, "Cavia porcellus", none, .Animalia, none, none, none, "author-1"⟩

/-- A comment on `sampleSpecies` authored by `author-2`. -/
def sampleComment : Comment :=
  ⟨3, "2024-06-02T15:45:00Z", "Nice", "author-2", 7⟩

/-- Dialog open in the viewing branch, forms at their saved defaults. -/
def viewingState : DialogState :=
  ⟨false, true, ⟨sampleForm, sampleForm⟩, ⟨"", ""⟩⟩

/-- Dialog open in the editing branch, forms at their saved defaults. -/
def editingState : DialogState :=
  ⟨true, true, ⟨sampleForm, sampleForm⟩, ⟨"", ""⟩⟩

/-- Dialog in the editing branch with unsaved edits in the species form. -/
def editedState : DialogState :=
  ⟨true, true, ⟨editedForm, sampleForm⟩, ⟨"", ""⟩⟩

/-- Dialog in the editing branch whose population field was emptied, which the
number input's change handler coerces to 0 via unary plus. -/
def zeroPopState : DialogState :=
  ⟨true, true, ⟨{ sampleForm with total_population := some 0 }, sampleForm⟩, ⟨"", ""⟩⟩

/-- Dialog in the viewing branch with "Hello" typed into the comment field. -/
def commentDraftState : DialogState :=
  ⟨false, true, ⟨sampleForm, sampleForm⟩, ⟨"Hello", ""⟩⟩

/-- A 151-character comment: 150 letters and a trailing space.  Its raw length
exceeds 150 while its trimmed length is exactly 150. -/
def longComment : String :=
  String.mk (List.replicate 150 'a' ++ [' '])

/-! Helper lemmas. -/

/-- Dropping leading elements cannot lengthen a list. -/
theorem length_dropWhile_le {α : Type} (p : α → Bool) (l : List α) :
    (l.dropWhile p).length ≤ l.length := by
  induction l with
  | nil => simp
  | cons a t ih =>
    by_cases h : p a = true <;> simp [List.dropWhile_cons, h] <;> omega

/-- Trimming cannot lengthen a string. -/
theorem jsTrim_length_le (s : String) : jsLength (jsTrim s) ≤ jsLength s := by
  unfold jsTrim jsLength trimList
  calc (((s.data.dropWhile Char.isWhitespace).reverse.dropWhile Char.isWhitespace).reverse).length
      = ((s.data.dropWhile Char.isWhitespace).reverse.dropWhile Char.isWhitespace).length := by
        rw [List.length_reverse]
    _ ≤ (s.data.dropWhile Char.isWhitespace).reverse.length := length_dropWhile_le _ _
    _ = (s.data.dropWhile Char.isWhitespace).length := by rw [List.length_reverse]
    _ ≤ s.data.length := length_dropWhile_le _ _

/-- A species form whose population field holds 0 fails the schema:
`z.number().int().positive().min(1)` rejects 0 (at whichever field issue
comes first). -/
theorem speciesSchema_pop_zero {raw : SpeciesFormData}
    (h : raw.total_population = some 0) : ∃ e, speciesSchema raw = .error e := by
  unfold speciesSchema
  rw [h]
  by_cases hs : jsLength (jsTrim raw.scientific_name) < 1
  · exact ⟨.scientificNameEmpty, by simp [hs]⟩
  · exact ⟨.populationNotPositive, by simp [hs]⟩

end SpeciesApp

namespace SpeciesApp

/-- C7.  Opening the dialog always lands in the viewing branch: whatever the
prior state, the open-change handler forces the editing flag off, emits no
effect, and sets the dialog open. -/
theorem open_always_yields_viewing (u : String) (sp : Species) (st : DialogState) :
    SpeciesDialog.step u sp st (.openChange true) =
      ({ st with isEditing := false, isOpen := true }, []) := rfl

/-- C10.  Closing the dialog while editing goes straight to the closed state:
no confirm prompt, no adapter call, no other effect, and the editing flag is
cleared — unlike the cancel button, which prompts first. -/
theorem close_while_editing_unguarded (u : String) (sp : Species)
    (st : DialogState) (h : st.isEditing = true) :
    SpeciesDialog.step u sp st (.openChange false) =
      ({ st with isEditing := false, isOpen := false }, []) := rfl

/-- Witness for C10 at a concrete editing state. -/
theorem close_while_editing_unguarded_w :
    SpeciesDialog.step "user-1" sampleSpecies editingState (.openChange false) =
      ({ editingState with isEditing := false, isOpen := false }, []) :=
  close_while_editing_unguarded "user-1" sampleSpecies editingState rfl

/-- C5.  When a save attempt's adapter update fails, the dialog state is
returned unchanged — still editing, the form (values and defaults) untouched —
and the effects are exactly the adapter call followed by a destructive toast
carrying the adapter's error message verbatim. -/
theorem failed_save_keeps_state (u : String) (sp : Species) (st : DialogState)
    (v : SpeciesFormData) (msg : String) (he : st.isEditing = true)
    (hv : speciesSchema st.speciesForm.values = .ok v) :
    SpeciesDialog.step u sp st (.submitSpecies (some msg)) =
      (st, [.updateSpecies sp.id v, .toastErr "Something went wrong." msg]) := by
  simp [SpeciesDialog.step, he, hv, SpeciesDialog.onSaveChanges]

/-- Witness for C5: a concrete failed save leaves the concrete editing state
intact and reports the message "boom" verbatim. -/
theorem failed_save_keeps_state_w :
    SpeciesDialog.step "user-1" sampleSpecies editingState (.submitSpecies (some "boom")) =
      (editingState,
       [.updateSpecies sampleSpecies.id sampleForm,
        .toastErr "Something went wrong." "boom"]) :=
  failed_save_keeps_state "user-1" sampleSpecies editingState sampleForm "boom"
    rfl (by decide)

/-- C9.  A submit while the population field holds 0 is rejected by the
schema before any handler runs: the state is unchanged and no effect — in
particular no adapter update — is emitted. -/
theorem zero_population_save_rejected (u : String) (sp : Species)
    (st : DialogState) (adapterErr : Option String)
    (h : st.speciesForm.values.total_population = some 0) :
    SpeciesDialog.step u sp st (.submitSpecies adapterErr) = (st, []) := by
  obtain ⟨e, hval⟩ := speciesSchema_pop_zero h
  by_cases he : st.isEditing <;> simp [SpeciesDialog.step, he, hval]

/-- Witness for C9 at a concrete editing state whose population field was
coerced to 0. -/
theorem zero_population_save_rejected_w :
    SpeciesDialog.step "user-1" sampleSpecies zeroPopState (.submitSpecies none) =
      (zeroPopState, []) :=
  zero_population_save_rejected "user-1" sampleSpecies zeroPopState none rfl

/-- C8.  Posting a comment whose content validates to `t`: the adapter insert
carries exactly `t`, the current user as author and the current species id.
On adapter success the comment form is reset to its empty default and a
router refresh is triggered; on adapter failure the state — the typed input
included — is untouched and, beyond the insert attempt itself, only a
destructive toast fires. -/
theorem post_comment_behavior (u : String) (sp : Species) (st : DialogState)
    (t msg : String) (he : st.isEditing = false)
    (hv : commentFormSchema st.commentForm.values = .ok t) :
    SpeciesDialog.step u sp st (.submitComment none) =
      ({ st with commentForm := ⟨"", ""⟩ },
       [.insertComment u t sp.id, .routerRefresh,
        .toastSuccess "Comment Posted!"
          ("Successfully commented \"" ++
            (jsTrim (t.take 25) ++ (if 25 < jsLength t then "..." else "")) ++ "\"")]) ∧
    SpeciesDialog.step u sp st (.submitComment (some msg)) =
      (st, [.insertComment u t sp.id, .toastErr "Something went wrong." msg]) := by
  constructor <;> simp [SpeciesDialog.step, he, hv, SpeciesDialog.onPost]

/-- Witness for C8: the scenario of the spec — user U posts "Hello" on the
species with id 7. -/
theorem post_comment_behavior_w :
    SpeciesDialog.step "U" sampleSpecies commentDraftState (.submitComment none) =
      ({ commentDraftState with commentForm := ⟨"", ""⟩ },
       [.insertComment "U" "Hello" sampleSpecies.id, .routerRefresh,
        .toastSuccess "Comment Posted!"
          ("Successfully commented \"" ++
            (jsTrim ("Hello".take 25) ++ (if 25 < jsLength "Hello" then "..." else "")) ++ "\"")]) ∧
    SpeciesDialog.step "U" sampleSpecies commentDraftState (.submitComment (some "boom")) =
      (commentDraftState,
       [.insertComment "U" "Hello" sampleSpecies.id,
        .toastErr "Something went wrong." "boom"]) :=
  post_comment_behavior "U" sampleSpecies commentDraftState "Hello" "boom"
    rfl (by decide)

/-- C3 (amended).  The comment schema: an empty string fails the minimum
check; a whitespace-only string always fails (with the issue depending on its
raw length); a string whose trimmed length exceeds 150 fails the maximum
check; and a string that is not whitespace-only is accepted, trimmed, exactly
when its RAW length — the `.max(150)` check runs before the trimming
transform — is between 1 and 150. -/
theorem comment_validation (s : String) :
    (jsLength s = 0 → commentFormSchema s = .error .tooShort) ∧
    (jsTrim s = "" → ∃ e, commentFormSchema s = .error e) ∧
    (150 < jsLength (jsTrim s) → commentFormSchema s = .error .tooLong) ∧
    (jsTrim s ≠ "" → 1 ≤ jsLength s → jsLength s ≤ 150 →
      commentFormSchema s = .ok (jsTrim s)) := by
  refine ⟨fun h0 => by simp [commentFormSchema, h0], ?_, ?_, ?_⟩
  · intro hws
    unfold commentFormSchema
    by_cases h1 : jsLength s < 1
    · exact ⟨.tooShort, by simp [h1]⟩
    · by_cases h2 : 150 < jsLength s
      · exact ⟨.tooLong, by simp [h1, h2]⟩
      · exact ⟨.emptyTrim, by simp [h1, h2, hws]⟩
  · intro hlong
    have hle := jsTrim_length_le s
    have h2 : 150 < jsLength s := lt_of_lt_of_le hlong hle
    have h1 : ¬ jsLength s < 1 := by omega
    simp [commentFormSchema, h1, h2]
  · intro hws h1 h2
    have h1' : ¬ jsLength s < 1 := by omega
    have h2' : ¬ 150 < jsLength s := by omega
    simp [commentFormSchema, h1', h2', hws]

set_option maxRecDepth 8192 in
/-- Counterexample for C3 as stated: 150 letters followed by a space is not
whitespace-only and trims to 150 characters, yet the schema rejects it with
the maximum-length issue, because `.max(150)` sees the raw 151-character
string. -/
theorem comment_validation_cex :
    commentFormSchema longComment = .error .tooLong ∧
    jsTrim longComment ≠ "" ∧
    1 ≤ jsLength (jsTrim longComment) ∧ jsLength (jsTrim longComment) ≤ 150 := by
  decide

set_option maxRecDepth 8192 in
/-- Witness for C3 at concrete strings: one instance of each clause of
`comment_validation`. -/
theorem comment_validation_w :
    commentFormSchema "" = .error .tooShort ∧
    (∃ e, commentFormSchema "   " = .error e) ∧
    commentFormSchema (String.mk (List.replicate 151 'b')) = .error .tooLong ∧
    commentFormSchema " Hi " = .ok "Hi" :=
  ⟨(comment_validation "").1 (by decide),
   (comment_validation "   ").2.1 (by decide),
   (comment_validation (String.mk (List.replicate 151 'b'))).2.2.1 (by decide),
   (comment_validation " Hi ").2.2.2 (by decide) (by decide) (by decide)⟩

/-- C4.  A cleared image input holds the empty string, and the schema rejects
it as an invalid URL: the `.url()` syntactic check runs before the
empty-to-null transform, so the promised normalization never happens.  The
same field set with a null image is accepted, and the transform by itself
would indeed send the empty string to null — the intended behavior the field
order defeats. -/
theorem empty_image_rejected_not_normalized :
    speciesSchema { sampleForm with image := some "" } = .error .imageInvalid ∧
    speciesSchema { sampleForm with image := none } = .ok sampleForm ∧
    normOpt (some "") = none ∧
    isValidURL "" = false := by
  refine ⟨by decide, by decide, by decide, by decide⟩

/-- One-step ownership invariant of the joined-query dialog: while a user
other than the record's author is interacting from the viewing branch, no
event can switch the dialog into the editing branch or emit a species delete:
the edit button is gated on ownership, and every editing-branch control is a
no-op from the viewing branch. -/
theorem step_nonowner {u : String} {sp : Species} (hne : u ≠ sp.author)
    {st : DialogState} (he : st.isEditing = false) (e : SpeciesDialog.Ev) :
    (SpeciesDialog.step u sp st e).1.isEditing = false ∧
    ∀ eff ∈ (SpeciesDialog.step u sp st e).2, ∀ i, eff ≠ Effect.deleteSpecies i := by
  have hbeq : (u == sp.author) = false := beq_eq_false_iff_ne.mpr hne
  cases e with
  | openChange o => simp [SpeciesDialog.step, SpeciesDialog.handleOpenChange]
  | clickEdit => simp [SpeciesDialog.step, SpeciesDialog.editButtonShown, he, hbeq]
  | clickCancel answer => simp [SpeciesDialog.step, he]
  | typeSpecies raw => simp [SpeciesDialog.step, he]
  | submitSpecies adapterErr => simp [SpeciesDialog.step, he]
  | clickDeleteSpecies answer adapterErr => simp [SpeciesDialog.step, he]
  | typeComment raw => simp [SpeciesDialog.step, he]
  | submitComment adapterErr =>
    simp only [SpeciesDialog.step, he, Bool.not_false, if_true]
    cases hv : commentFormSchema st.commentForm.values with
    | error err => simp [hv, he]
    | ok v =>
      cases adapterErr with
      | none => simp [SpeciesDialog.onPost, he]
      | some msg => simp [SpeciesDialog.onPost, he]

/-- Trace-level ownership invariant: from the viewing branch, a non-owner can
run any event sequence without ever entering the editing branch or causing a
species delete effect. -/
theorem run_nonowner {u : String} {sp : Species} (hne : u ≠ sp.author) :
    ∀ (evs : List SpeciesDialog.Ev) (st : DialogState), st.isEditing = false →
      (SpeciesDialog.run u sp st evs).1.isEditing = false ∧
      ∀ eff ∈ (SpeciesDialog.run u sp st evs).2, ∀ i, eff ≠ Effect.deleteSpecies i := by
  intro evs
  induction evs with
  | nil => intro st he; simpa [SpeciesDialog.run] using he
  | cons e es ih =>
    intro st he
    obtain ⟨h1, h2⟩ := step_nonowner hne he e
    obtain ⟨h3, h4⟩ := ih (SpeciesDialog.step u sp st e).1 h1
    refine ⟨by simpa [SpeciesDialog.run] using h3, ?_⟩
    intro eff heff i
    simp only [SpeciesDialog.run, List.mem_append] at heff
    rcases heff with h | h
    · exact h2 eff h i
    · exact h4 eff h i

/-- C1 (amended).  Ownership gating as the code implements it: in the
joined-query dialog variant the edit affordance is shown only to the record's
author, and from the viewing branch a non-owner can never reach the editing
branch nor cause a species delete over any event sequence; on comment cards
(both variants) the delete affordance is shown only to the comment's author,
and a delete click by anyone else is a no-op.  (The secondary-query dialog
variant, by contrast, does not gate its edit affordance — see the
counterexample.) -/
theorem ownership_gate :
    (∀ (u : String) (sp : Species) (st : DialogState),
        SpeciesDialog.editButtonShown u sp st = true → u = sp.author) ∧
    (∀ (u : String) (c : Comment),
        CommentCard.deleteShown u c = true → u = c.author) ∧
    (∀ (u : String) (sp : Species), u ≠ sp.author →
      ∀ (st : DialogState), st.isEditing = false →
        ∀ (evs : List SpeciesDialog.Ev),
          (SpeciesDialog.run u sp st evs).1.isEditing = false ∧
          ∀ eff ∈ (SpeciesDialog.run u sp st evs).2,
            ∀ i, eff ≠ Effect.deleteSpecies i) ∧
    (∀ (u : String) (c : Comment) (answer : Bool) (adapterErr : Option String),
        u ≠ c.author → CommentCard.clickDelete u c answer adapterErr = []) := by
  refine ⟨?_, ?_, ?_, ?_⟩
  · intro u sp st h
    simp only [SpeciesDialog.editButtonShown, Bool.and_eq_true, beq_iff_eq] at h
    exact h.2
  · intro u c h
    simpa [CommentCard.deleteShown, beq_iff_eq] using h
  · intro u sp hne st he evs
    exact run_nonowner hne evs st he
  · intro u c answer adapterErr hne
    simp [CommentCard.clickDelete, CommentCard.deleteShown,
      beq_eq_false_iff_ne.mpr hne]

/-- Counterexample for C1 as stated: the secondary-query dialog variant
renders its Edit Species button in the viewing branch for every user — the
`userId` prop is never compared with `species.author` there — so a user other
than the author gets the edit affordance and one click away reaches the
editing state. -/
theorem ownership_gate_cex :
    SpeciesDialog.editButtonShownSecondary "user-1" sampleSpecies viewingState = true ∧
    "user-1" ≠ sampleSpecies.author := by
  refine ⟨rfl, by decide⟩

/-- Witness for C1: concrete instances of each clause of `ownership_gate` —
the gated button forces authorship, and the non-owner "user-1" can click edit
and delete without effect. -/
theorem ownership_gate_w :
    ("author-1" : String) = sampleSpecies.author ∧
    ("author-2" : String) = sampleComment.author ∧
    (SpeciesDialog.run "user-1" sampleSpecies viewingState
      [.clickEdit, .clickDeleteSpecies true none]).1.isEditing = false ∧
    CommentCard.clickDelete "user-1" sampleComment true none = [] :=
  ⟨ownership_gate.1 "author-1" sampleSpecies viewingState (by decide),
   ownership_gate.2.1 "author-2" sampleComment (by decide),
   (ownership_gate.2.2.1 "user-1" sampleSpecies (by decide) viewingState rfl
      [.clickEdit, .clickDeleteSpecies true none]).1,
   ownership_gate.2.2.2 "user-1" sampleComment true none (by decide)⟩

/-- C6 (amended).  The species delete action, reachable from the editing
branch only: the delete button is rendered there, clicking it prompts for
confirmation, and on a yes answer the adapter delete runs.  On adapter
success the dialog closes, a router refresh and a success toast fire (no
local list mutation exists in the model); on adapter failure the state is
unchanged and only a destructive toast follows the attempt; on a no answer
nothing but the prompt happens. -/
theorem species_delete_workflow (u : String) (sp : Species) (st : DialogState)
    (msg : String) (he : st.isEditing = true) :
    SpeciesDialog.deleteButtonShown st = true ∧
    SpeciesDialog.step u sp st (.clickDeleteSpecies true none) =
      ({ st with isOpen := false },
       [.confirmAsked "Are you sure you want to delete this species?",
        .deleteSpecies sp.id, .routerRefresh,
        .toastSuccess "Species Deleted"
          ("Successfully deleted " ++ sp.scientific_name ++ ".")]) ∧
    SpeciesDialog.step u sp st (.clickDeleteSpecies true (some msg)) =
      (st, [.confirmAsked "Are you sure you want to delete this species?",
            .deleteSpecies sp.id, .toastErr "Something went wrong." msg]) ∧
    SpeciesDialog.step u sp st (.clickDeleteSpecies false none) =
      (st, [.confirmAsked "Are you sure you want to delete this species?"]) := by
  refine ⟨?_, ?_, ?_, ?_⟩ <;>
    simp [SpeciesDialog.deleteButtonShown, SpeciesDialog.step, he,
      SpeciesDialog.handleDelete]

/-- Counterexample for C6 as stated: in the viewing branch the delete button
is not rendered — the button sits inside the editing branch — so a delete
click while viewing is a no-op, without even a confirmation prompt.  The
delete action is not reachable from both Viewing and Editing. -/
theorem species_delete_workflow_cex :
    SpeciesDialog.deleteButtonShown viewingState = false ∧
    viewingState.isEditing = false ∧ viewingState.isOpen = true ∧
    SpeciesDialog.step "author-1" sampleSpecies viewingState
      (.clickDeleteSpecies true none) = (viewingState, []) := by
  refine ⟨rfl, rfl, rfl, rfl⟩

/-- Witness for C6 at a concrete editing state. -/
theorem species_delete_workflow_w :
    SpeciesDialog.step "author-1" sampleSpecies editingState
      (.clickDeleteSpecies true none) =
      ({ editingState with isOpen := false },
       [.confirmAsked "Are you sure you want to delete this species?",
        .deleteSpecies sampleSpecies.id, .routerRefresh,
        .toastSuccess "Species Deleted"
          ("Successfully deleted " ++ sampleSpecies.scientific_name ++ ".")]) :=
  (species_delete_workflow "author-1" sampleSpecies editingState "boom" rfl).2.1

/-- C2.  A confirmed cancel flips the dialog back to the viewing branch after
the confirm prompt, with no adapter call — but the species form is NOT reset:
the in-progress edits stay in form state, still differing from the saved
defaults, contradicting the prompt's own "All changes will be discarded." -/
theorem cancel_confirm_keeps_edits :
    SpeciesDialog.step "author-1" sampleSpecies editedState (.clickCancel true) =
      ({ editedState with isEditing := false },
       [.confirmAsked "All changes will be discarded."]) ∧
    ({ editedState with isEditing := false }).speciesForm.values ≠
      ({ editedState with isEditing := false }).speciesForm.defaults ∧
    SpeciesDialog.step "author-1" sampleSpecies editedState (.clickCancel false) =
      (editedState, [.confirmAsked "All changes will be discarded."]) := by
  refine ⟨by decide, by decide, by decide⟩

end SpeciesApp
